import Mathlib

/-!
Verification development for the CLIP4Cir-with-SPN retrieval core
(`src/data_utils.py` and `src/inference.py`).

Shallow embedding conventions:
* Python floats produced by `random.random()` and the literal thresholds are
  modelled as rationals (every float is a rational, and every comparison made
  by the code has the same truth value on the rational values used here).
* Image tensors enter the padding transforms only through their `(width,
  height)` size, so the pads are modelled as functions on sizes; the constant
  fill value `0` of `torchvision.transforms.functional.pad` is recorded
  separately.
* Fallible Python operations (indexing, `PIL.Image.open`) return
  `Except String _`; a `try/except` wrapper that prints and falls through
  (returning `None`) becomes `Except → Option`.
* Embedding vectors are `List ℝ` (L2 normalisation needs square roots);
  `torch.argsort` is invoked by the code without `stable := true`, whose
  documented contract leaves the relative order of equal elements
  unspecified, so the ranker is embedded as a relation between inputs and
  admissible outputs.
-/

set_option maxRecDepth 10000

/-- Python `int(q)` on a rational: truncation toward zero. -/
def pyInt (q : ℚ) : ℤ := if 0 ≤ q then ⌊q⌋ else ⌈q⌉

/-- Character set of the Python literal `'.?, '` used by `str.strip` in
`generate_randomized_fiq_caption`. -/
def stripSet : List Char := ['.', '?', ',', ' ']

/-- Python `s.strip('.?, ')`: drop leading and trailing characters that belong
to `stripSet`. -/
def pyStrip (s : String) : String :=
  ⟨((s.data.dropWhile (· ∈ stripSet)).reverse.dropWhile (· ∈ stripSet)).reverse⟩

/-- Python list indexing `xs[i]` for a list of strings: `IndexError` when the
index is out of range. -/
def pyGet (xs : List String) (i : ℕ) : Except String String :=
  match xs.get? i with
  | some s => Except.ok s
  | none => Except.error "IndexError"

/-- Python `try: body except Exception: print(...)`: the caught exception is
swallowed and the function implicitly returns `None`. -/
def pyTry {α : Type} (body : Except String α) : Option α :=
  match body with
  | Except.ok v => some v
  | Except.error _ => none

/-- Embedding of `SquarePad.__call__` from `src/data_utils.py` (lines 32-38)
acting on the image size `(w, h)`. The code computes
`hp = int((max_wh - w) / 2)`, `vp = int((max_wh - h) / 2)` and pads by
`[hp, vp, hp, vp]`, so each dimension grows by twice the truncated half
difference. `self.size` is never read by `__call__` and is omitted.
The differences are nonnegative, so `int(... / 2)` is natural floor
division. -/
def SquarePad.call (w h : ℕ) : ℕ × ℕ :=
  let max_wh := max w h
  let hp := (max_wh - w) / 2
  let vp := (max_wh - h) / 2
  (w + 2 * hp, h + 2 * vp)

/-- Fill value passed by both pads to `F.pad(image, padding, 0, 'constant')`. -/
def padFillValue : ℕ := 0

/-- Embedding of `TargetPad.__call__` from `src/data_utils.py` (lines 55-64)
acting on the image size `(w, h)` with configured target ratio `r`.
When `max(w,h)/min(w,h) < r` the image is returned unchanged; otherwise
`scaled_max_wh = max(w,h) / r`, `hp = max(int((scaled_max_wh - w)/2), 0)`,
`vp = max(int((scaled_max_wh - h)/2), 0)` and the image is padded by
`[hp, vp, hp, vp]`. -/
def TargetPad.call (r : ℚ) (w h : ℕ) : ℕ × ℕ :=
  let actual : ℚ := ((max w h : ℕ) : ℚ) / ((min w h : ℕ) : ℚ)
  if actual < r then (w, h)
  else
    let scaled : ℚ := ((max w h : ℕ) : ℚ) / r
    let hp : ℤ := max (pyInt ((scaled - (w : ℚ)) / 2)) 0
    let vp : ℤ := max (pyInt ((scaled - (h : ℚ)) / 2)) 0
    (w + 2 * hp.toNat, h + 2 * vp.toNat)

/-- Embedding of `generate_randomized_fiq_caption(captions, type=-1)` from
`src/data_utils.py` (lines 304-322), split into the `type` override of the
draw (`fiqDrawOverride`) and the branch selection (`fiqCaptionBranch`).
`randomDraw` stands for the value of `random.random()`; `ty` is the `type`
argument, whose values `0`-`3` overwrite the draw with the constants
`0.12 / 0.37 / 0.62 / 0.88`. The four branches follow the source's chained
comparisons exactly (`random_num < 0.25`, `0.25 < random_num < 0.5`,
`0.5 < random_num < 0.75`, `else`); list accesses are fallible, in the
evaluation order of the f-strings. -/
def fiqDrawOverride (randomDraw : ℚ) (ty : ℤ) : ℚ :=
  if ty = 0 then mkRat 12 100
  else if ty = 1 then mkRat 37 100
  else if ty = 2 then mkRat 62 100
  else if ty = 3 then mkRat 88 100
  else randomDraw

/-- Branch selection of `generate_randomized_fiq_caption` on the (possibly
overwritten) value of `random_num`. -/
def fiqCaptionBranch (captions : List String) (random_num : ℚ) :
    Except String String :=
  if random_num < mkRat 25 100 then do
    let a ← pyGet captions 0
    let b ← pyGet captions 1
    pure (pyStrip a ++ " and " ++ pyStrip b)
  else if mkRat 25 100 < random_num ∧ random_num < mkRat 50 100 then do
    let b ← pyGet captions 1
    let a ← pyGet captions 0
    pure (pyStrip b ++ " and " ++ pyStrip a)
  else if mkRat 50 100 < random_num ∧ random_num < mkRat 75 100 then do
    let a ← pyGet captions 0
    pure (pyStrip a)
  else do
    let b ← pyGet captions 1
    pure (pyStrip b)

def generate_randomized_fiq_caption (captions : List String) (randomDraw : ℚ)
    (ty : ℤ) : Except String String :=
  fiqCaptionBranch captions (fiqDrawOverride randomDraw ty)

/-- Caption-selection logic of the `split == 'train'` branch of
`CIRDataset.__getitem__` (`src/data_utils.py` lines 460-470): captions with
more than one entry go through `generate_randomized_fiq_caption` when the
dataset is FashionIQ and the index is below `self.N`, otherwise through
`random.choice(captions)` (modelled by a choice index reduced modulo the
length); a single caption is used directly. `r` is the `random.random()`
draw, `rc` the `random.choice` pick. -/
def CIRDataset.trainCaptionSelect (dataName : String) (idx N : ℕ)
    (captions : List String) (r : ℚ) (rc : ℕ) : Except String String :=
  if 1 < captions.length then
    if dataName = "fiq" ∧ idx < N then
      generate_randomized_fiq_caption captions r (-1)
    else pyGet captions (rc % captions.length)
  else pyGet captions 0

/-- Caption-selection logic of the `split == 'val' and self.val_ret_train`
branch of `CIRDataset.__getitem__` (`src/data_utils.py` lines 478-482): a
multi-caption record is composed with the deterministic selector `type=0`,
regardless of the random draw `r`; a single caption is used directly. -/
def CIRDataset.valRetCaptionSelect (captions : List String) (r : ℚ) :
    Except String String :=
  if 1 < captions.length then
    generate_randomized_fiq_caption captions r 0
  else pyGet captions 0

/-- Embedding of `extract_index_features` from `src/inference.py` (lines
135-147): the classic-mode dataset is iterated once through a `DataLoader`
with `batch_size=1`, so the loop sees the items in dataset order, one per
batch; each image is encoded and stacked onto `index_features` while its
name is appended to `index_names`. `encode` abstracts
`clip_model.encode_image`; `Img` and `Emb` abstract tensors. -/
def extract_index_features {Img Emb : Type} (encode : Img → Emb)
    (dataset : List (String × Img)) : List Emb × List String :=
  dataset.foldl
    (fun acc item => (acc.1 ++ [encode item.2], acc.2 ++ [item.1]))
    ([], [])

/-- Path of a FashionIQ image inside the repository layout
(`base_path / 'fashionIQ_dataset' / 'images' / f"{name}.jpg"`). -/
def fiqImagePath (name : String) : String :=
  "fashionIQ_dataset/images/" ++ name ++ ".jpg"

/-- Fetch body of the `classic` branch of `FashionIQDataset.__getitem__`
(`src/data_utils.py` lines 175-179): look up the image name at `index`,
open the image at the derived path and preprocess it. `openImage` abstracts
`PIL.Image.open` (which may raise) and `pre` abstracts `self.preprocess`. -/
def FashionIQDataset.classicFetch {Img : Type}
    (openImage : String → Except String Img) (pre : Img → Img)
    (imageNames : List String) (index : ℕ) : Except String (String × Img) := do
  let imageName ← pyGet imageNames index
  let image ← openImage (fiqImagePath imageName)
  pure (imageName, pre image)

/-- Embedding of the `classic` branch of `FashionIQDataset.__getitem__`
(`src/data_utils.py` lines 152-184): the whole body runs inside
`try/except Exception`, which prints the exception and implicitly returns
`None`. -/
def FashionIQDataset.getItemClassic {Img : Type}
    (openImage : String → Except String Img) (pre : Img → Img)
    (imageNames : List String) (index : ℕ) : Option (String × Img) :=
  pyTry (FashionIQDataset.classicFetch openImage pre imageNames index)

/-- Fetch body of the `classic` branch of `CIRRDataset.__getitem__`
(`src/data_utils.py` lines 259-264): take the `index`-th key of
`name_to_relpath`, resolve its relative path and open it. The mapping is
modelled as an association list in key order. -/
def CIRRDataset.classicFetch {Img : Type}
    (openImage : String → Except String Img) (pre : Img → Img)
    (nameToRelpath : List (String × String)) (index : ℕ) :
    Except String (String × Img) := do
  let imageName ← pyGet (nameToRelpath.map Prod.fst) index
  let relpath ←
    match (nameToRelpath.lookup imageName).map ("cirr_dataset/" ++ ·) with
    | some p => Except.ok p
    | none => Except.error "KeyError"
  let image ← openImage relpath
  pure (imageName, pre image)

/-- Embedding of the `classic` branch of `CIRRDataset.__getitem__`
(`src/data_utils.py` lines 236-270): wrapped in the same print-and-return
`try/except`. -/
def CIRRDataset.getItemClassic {Img : Type}
    (openImage : String → Except String Img) (pre : Img → Img)
    (nameToRelpath : List (String × String)) (index : ℕ) :
    Option (String × Img) :=
  pyTry (CIRRDataset.classicFetch openImage pre nameToRelpath index)

/-- Fetch body of `WikiartDataset.__getitem__` (`src/data_utils.py` lines
290-299): read the `image_path` field of the `index`-th record and open it
under `base_path/images`. The records are modelled by their `image_path`
strings. -/
def WikiartDataset.fetch {Img : Type}
    (openImage : String → Except String Img) (pre : Img → Img)
    (basePath : String) (imagePaths : List String) (index : ℕ) :
    Except String (String × Img) := do
  let imageName ← pyGet imagePaths index
  let image ← openImage (basePath ++ "/images/" ++ imageName)
  pure (imageName, pre image)

/-- Embedding of `WikiartDataset.__getitem__`: wrapped in the same
print-and-return `try/except`. -/
def WikiartDataset.getItem {Img : Type}
    (openImage : String → Except String Img) (pre : Img → Img)
    (basePath : String) (imagePaths : List String) (index : ℕ) :
    Option (String × Img) :=
  pyTry (WikiartDataset.fetch openImage pre basePath imagePaths index)

/-- Embedding of the `classic` / FashionIQ / `fiq_val_type == 0` branch of
`CIRDataset.__getitem__` (`src/data_utils.py` lines 500-506). Unlike the
other three adapters, `CIRDataset.__getitem__` has no `try/except`, so the
fallible fetch is returned as-is and any per-item exception propagates to
the caller. -/
def CIRDataset.getItemClassicFiq {Img : Type}
    (openImage : String → Except String Img) (pre : Img → Img)
    (imagePathRoot : String) (imageNames : List String) (index : ℕ) :
    Except String (String × Img) := do
  let imageName ← pyGet imageNames index
  let image ← openImage (imagePathRoot ++ "/" ++ imageName ++ ".png")
  pure (imageName, pre image)

/-- Validation performed by `FashionIQDataset.__init__` (`src/data_utils.py`
lines 128-134): mode checked first, then split, then every dress type; each
failure raises `ValueError` before any file is read. -/
def FashionIQDataset.initCheck (split : String) (dressTypes : List String)
    (mode : String) : Except String Unit :=
  if mode ∉ ["relative", "classic"] then
    Except.error "ValueError: mode"
  else if split ∉ ["test", "train", "val"] then
    Except.error "ValueError: split"
  else if ∀ d ∈ dressTypes, d ∈ ["dress", "shirt", "toptee"] then
    Except.ok ()
  else Except.error "ValueError: dress_type"

/-- Validation performed by `CIRRDataset.__init__` (`src/data_utils.py`
lines 221-224): split checked first, then mode. -/
def CIRRDataset.initCheck (split mode : String) : Except String Unit :=
  if split ∉ ["test1", "train", "val"] then
    Except.error "ValueError: split"
  else if mode ∉ ["relative", "classic"] then
    Except.error "ValueError: mode"
  else Except.ok ()

/-- Validation performed by `CIRDataset.__init__` (`src/data_utils.py` lines
328-332): only the dress types are asserted. The `data_name`, `split` and
`mode` parameters are stored without inspection — an unknown `data_name`
merely skips both loading branches and a construction such as
`data_name='foo', split='val'` completes without touching a file, so those
arguments are accepted here exactly as the constructor accepts them. -/
def CIRDataset.initCheck (dataName split mode : String)
    (dressTypes : List String) : Except String Unit :=
  if ∀ d ∈ dressTypes, d ∈ ["dress", "shirt", "toptee"] then Except.ok ()
  else Except.error "AssertionError"

/-- Dot product of two feature vectors — one entry of
`predicted_features @ index_features.T` in `get_predictions`
(`src/inference.py` line 123). -/
noncomputable def dotProduct (q g : List ℝ) : ℝ := (List.zipWith (fun a b => a * b) q g).sum

/-- L2 norm of a feature vector, as used by
`torch.nn.functional.normalize(_, dim=-1)`. -/
noncomputable def l2norm (g : List ℝ) : ℝ := Real.sqrt (g.map (fun x => x ^ 2)).sum

/-- The `eps = 1e-12` clamp of `F.normalize`. -/
noncomputable def normalizeEps : ℝ := 1 / 10 ^ 12

/-- Embedding of `F.normalize(index_features, dim=-1)` on one gallery row:
`x / max(‖x‖₂, eps)`. -/
noncomputable def l2normalize (g : List ℝ) : List ℝ :=
  g.map (fun x => x / max (l2norm g) normalizeEps)

/-- Row of distances computed by `get_predictions` (`src/inference.py` line
123): `1 - predicted_features @ index_features.T` after L2-normalizing the
index features; the query row is used as produced by the combiner, without
further normalization. -/
noncomputable def distancesRow (q : List ℝ) (G : List (List ℝ)) : List ℝ :=
  G.map (fun g => 1 - dotProduct q (l2normalize g))

/-- Contract of `torch.argsort(distances, dim=-1)` as invoked on line 124 of
`src/inference.py`: the `stable` flag is left at its default `False`, so the
result is some permutation of the row indices along which the distances are
non-decreasing — the relative order of equal elements is unspecified by the
documented contract. -/
def IsArgsortOf (d : List ℝ) (p : List ℕ) : Prop :=
  p.Perm (List.range d.length)
    ∧ p.Chain' (fun i j => d.getD i 0 ≤ d.getD j 0)

/-- Embedding of `get_predictions` from `src/inference.py` (lines 100-133):
`out` is an admissible value of `np.array(index_names)[sorted_indices]`,
where `sorted_indices` is any output admissible for the unstable
`torch.argsort`. -/
def get_predictions (q : List ℝ) (G : List (List ℝ)) (names : List String)
    (out : List String) : Prop :=
  ∃ p, IsArgsortOf (distancesRow q G) p
    ∧ out = p.map (fun i => names.getD i "")

/-- Ranking characterization asserted by claim C1: sorted by non-decreasing
distance with ties between equal distances broken by original gallery
position. -/
def StableRankingOf (q : List ℝ) (G : List (List ℝ)) (names : List String)
    (out : List String) : Prop :=
  ∃ p, IsArgsortOf (distancesRow q G) p
    ∧ (∀ a b : ℕ, ∀ ha : a < p.length, ∀ hb : b < p.length, a < b →
        (distancesRow q G).getD (p.get ⟨a, ha⟩) 0
          = (distancesRow q G).getD (p.get ⟨b, hb⟩) 0 →
        p.get ⟨a, ha⟩ < p.get ⟨b, hb⟩)
    ∧ out = p.map (fun i => names.getD i "")

example : generate_randomized_fiq_caption ["a.", " b"] (mkRat 1 10) (-1)
    = Except.ok "a and b" := by rfl

example : generate_randomized_fiq_caption ["a", "b"] (mkRat 1 4) (-1)
    = Except.ok "b" := by rfl

example : generate_randomized_fiq_caption ["a", "b"] (mkRat 1 2) (-1)
    = Except.ok "b" := by rfl

example : generate_randomized_fiq_caption ["a", "b"] (mkRat 6 10) (-1)
    = Except.ok "a" := by rfl

example : SquarePad.call 3 4 = (3, 4) := by decide

example : TargetPad.call (mkRat 5 4) 4 2 = (4, 2) := by
  norm_num [TargetPad.call, pyInt, Int.ceil_le]

example : TargetPad.call (mkRat 5 4) 10 2 = (10, 8) := by
  norm_num [TargetPad.call, pyInt, Int.ceil_le]
  decide

/-- Helper: the override constant `0.12` lies in the first quartile. -/
lemma mkRat_12_lt : mkRat 12 100 < mkRat 25 100 := by decide

/-- Helper: unfolding of the four quartile thresholds to plain fractions. -/
lemma mkRat_25_eq : mkRat 25 100 = 1 / 4 := by
  rw [Rat.mkRat_eq_div]; norm_num

lemma mkRat_50_eq : mkRat 50 100 = 1 / 2 := by
  rw [Rat.mkRat_eq_div]; norm_num

lemma mkRat_75_eq : mkRat 75 100 = 3 / 4 := by
  rw [Rat.mkRat_eq_div]; norm_num

/-- Helper: a list index below the length never raises `IndexError`. -/
lemma pyGet_ok (xs : List String) (i : ℕ) (h : i < xs.length) :
    ∃ s, pyGet xs i = Except.ok s := by
  unfold pyGet
  rw [List.get?_eq_get h]
  exact ⟨_, rfl⟩

/-- Helper: with at least two captions, every branch of
`generate_randomized_fiq_caption` succeeds, whatever the draw and the
selector. -/
lemma fiq_caption_branch_total (a b : String) (t : List String) (q : ℚ) :
    ∃ s, fiqCaptionBranch (a :: b :: t) q = Except.ok s := by
  unfold fiqCaptionBranch
  split
  · exact ⟨_, rfl⟩
  · split
    · exact ⟨_, rfl⟩
    · split
      · exact ⟨_, rfl⟩
      · exact ⟨_, rfl⟩

lemma gen_fiq_caption_total (a b : String) (t : List String) (r : ℚ)
    (ty : ℤ) :
    ∃ s, generate_randomized_fiq_caption (a :: b :: t) r ty = Except.ok s :=
  fiq_caption_branch_total a b t (fiqDrawOverride r ty)

/-- Helper: on a two-caption list, the four branches of
`generate_randomized_fiq_caption` with `type = -1` produce the four
compositions, following the source's strict comparisons. -/
lemma gen_fiq_caption_pair (A B : String) (r : ℚ) :
    fiqCaptionBranch [A, B] r =
      if r < 1 / 4 then Except.ok (pyStrip A ++ " and " ++ pyStrip B)
      else if 1 / 4 < r ∧ r < 1 / 2 then
        Except.ok (pyStrip B ++ " and " ++ pyStrip A)
      else if 1 / 2 < r ∧ r < 3 / 4 then Except.ok (pyStrip A)
      else Except.ok (pyStrip B) := by
  unfold fiqCaptionBranch
  rw [mkRat_25_eq, mkRat_50_eq, mkRat_75_eq]
  norm_num [pyGet]
  split
  · rfl
  · split
    · rfl
    · split
      · rfl
      · rfl

/-- Helper: `pyInt` of a nonpositive rational is nonpositive. -/
lemma pyInt_nonpos {q : ℚ} (hq : q ≤ 0) : pyInt q ≤ 0 := by
  unfold pyInt
  split
  · exact Int.floor_nonpos hq
  · exact Int.ceil_le.mpr (by exact_mod_cast hq)

/-- Helper: `pyInt` agrees with the floor on nonnegative rationals. -/
lemma pyInt_of_nonneg {q : ℚ} (hq : 0 ≤ q) : pyInt q = ⌊q⌋ := if_pos hq

/-- Helper: `TargetPad.__call__` treats width and height symmetrically. -/
lemma targetPad_swap (r : ℚ) (w h : ℕ) :
    TargetPad.call r h w
      = ((TargetPad.call r w h).2, (TargetPad.call r w h).1) := by
  unfold TargetPad.call
  rw [max_comm h w, min_comm h w]
  dsimp only
  by_cases hc : ((max w h : ℕ) : ℚ) / ((min w h : ℕ) : ℚ) < r
  · rw [if_pos hc, if_pos hc]
  · rw [if_neg hc, if_neg hc]

/-- Helper: padding a side `m` up by `2 * int((s - m) / 2)` pixels lands at
most at `s` and within 2 pixels below it. -/
lemma pad_amount_bounds (s : ℚ) (m : ℕ) (hm : (m : ℚ) ≤ s) :
    ((m + 2 * (⌊(s - (m : ℚ)) / 2⌋).toNat : ℕ) : ℚ) ≤ s
      ∧ s < ((m + 2 * (⌊(s - (m : ℚ)) / 2⌋).toNat : ℕ) : ℚ) + 2 := by
  have hx0 : 0 ≤ (s - (m : ℚ)) / 2 := by linarith
  have hfl0 : 0 ≤ ⌊(s - (m : ℚ)) / 2⌋ := Int.floor_nonneg.mpr hx0
  have hk : ((⌊(s - (m : ℚ)) / 2⌋).toNat : ℤ) = ⌊(s - (m : ℚ)) / 2⌋ :=
    Int.toNat_of_nonneg hfl0
  have hkQ : (((⌊(s - (m : ℚ)) / 2⌋).toNat : ℕ) : ℚ)
      = ((⌊(s - (m : ℚ)) / 2⌋ : ℤ) : ℚ) := by
    exact_mod_cast congrArg (fun z : ℤ => (z : ℚ)) hk
  have hcast : ((m + 2 * (⌊(s - (m : ℚ)) / 2⌋).toNat : ℕ) : ℚ)
      = (m : ℚ) + 2 * ((⌊(s - (m : ℚ)) / 2⌋ : ℤ) : ℚ) := by
    rw [Nat.cast_add, Nat.cast_mul, hkQ, Nat.cast_ofNat]
  rw [hcast]
  constructor
  · have := Int.floor_le ((s - (m : ℚ)) / 2)
    linarith
  · have := Int.sub_one_lt_floor ((s - (m : ℚ)) / 2)
    linarith

/-- Helper: in the padding branch with `h ≤ w` and a target ratio at least 1,
the width is untouched and the height lands (up to the `int` truncation)
exactly on `w / r`. -/
lemma targetPad_pads (r : ℚ) (w h : ℕ) (hh : 0 < h) (hle : h ≤ w) (hr : 1 ≤ r)
    (hcond : r ≤ (w : ℚ) / (h : ℚ)) :
    (TargetPad.call r w h).1 = w
      ∧ r * ((TargetPad.call r w h).2 : ℚ) ≤ (w : ℚ)
      ∧ (w : ℚ) < r * (((TargetPad.call r w h).2 : ℚ) + 2) := by
  have hr0 : (0 : ℚ) < r := lt_of_lt_of_le one_pos hr
  have hq : (0 : ℚ) < (h : ℚ) := by exact_mod_cast hh
  have hmax : max w h = w := max_eq_left hle
  have hmin : min w h = h := min_eq_right hle
  have hcond2 : ¬ (((max w h : ℕ) : ℚ) / ((min w h : ℕ) : ℚ) < r) := by
    rw [hmax, hmin]; exact not_lt.mpr hcond
  have hrh : r * (h : ℚ) ≤ (w : ℚ) := (le_div_iff₀ hq).mp hcond
  have hhw : (h : ℚ) ≤ (w : ℚ) / r := by
    rw [le_div_iff₀ hr0]
    calc (h : ℚ) * r = r * (h : ℚ) := mul_comm _ _
    _ ≤ (w : ℚ) := hrh
  have hwr_le : (w : ℚ) / r ≤ (w : ℚ) := div_le_self (by positivity) hr
  have hhp : max (pyInt (((w : ℚ) / r - (w : ℚ)) / 2)) 0 = 0 := by
    refine max_eq_right ?_
    exact pyInt_nonpos (by linarith)
  have hx0 : 0 ≤ ((w : ℚ) / r - (h : ℚ)) / 2 := by linarith
  have hvp : max (pyInt (((w : ℚ) / r - (h : ℚ)) / 2)) 0
      = ⌊((w : ℚ) / r - (h : ℚ)) / 2⌋ := by
    rw [pyInt_of_nonneg hx0]
    exact max_eq_left (Int.floor_nonneg.mpr hx0)
  have hbounds := pad_amount_bounds ((w : ℚ) / r) h hhw
  have hrs : r * ((w : ℚ) / r) = (w : ℚ) := by field_simp
  unfold TargetPad.call
  rw [if_neg hcond2]
  simp only [hmax, hmin, hhp, hvp]
  refine ⟨by simp, ?_, ?_⟩
  · calc r * ((h + 2 * (⌊((w : ℚ) / r - (h : ℚ)) / 2⌋).toNat : ℕ) : ℚ)
        ≤ r * ((w : ℚ) / r) :=
          mul_le_mul_of_nonneg_left hbounds.1 (le_of_lt hr0)
    _ = (w : ℚ) := hrs
  · calc (w : ℚ) = r * ((w : ℚ) / r) := hrs.symm
    _ < r * (((h + 2 * (⌊((w : ℚ) / r - (h : ℚ)) / 2⌋).toNat : ℕ) : ℚ) + 2) :=
          mul_lt_mul_of_pos_left hbounds.2 hr0

/-- Helper: the accumulating fold of `extract_index_features` is a pair of
maps. -/
lemma extract_index_features_foldl {Img Emb : Type} (encode : Img → Emb)
    (dataset : List (String × Img)) (accF : List Emb) (accN : List String) :
    dataset.foldl
        (fun acc item => (acc.1 ++ [encode item.2], acc.2 ++ [item.1]))
        (accF, accN)
      = (accF ++ dataset.map (fun item => encode item.2),
         accN ++ dataset.map Prod.fst) := by
  induction dataset generalizing accF accN with
  | nil => simp
  | cons hd tl ih =>
    simp only [List.foldl_cons, List.map_cons]
    rw [ih]
    simp

/-- Helper: bind on an `ok` value reduces. -/
lemma except_bind_ok {α β : Type} (a : α) (f : α → Except String β) :
    (Except.ok a >>= f) = f a := rfl

/-- Helper: bind on an `error` value propagates the error. -/
lemma except_bind_error {α β : Type} (e : String)
    (f : α → Except String β) :
    ((Except.error e : Except String α) >>= f) = Except.error e := rfl

/-- Helper: the L2 norm of the unit vector `[1, 0]` is 1. -/
lemma l2norm_unit : l2norm [1, 0] = 1 := by
  unfold l2norm
  norm_num [Real.sqrt_one]

/-- Helper: the eps clamp does not affect a unit norm. -/
lemma max_norm_eps : max (1 : ℝ) normalizeEps = 1 :=
  max_eq_left (by norm_num [normalizeEps])

/-- Helper: normalizing `[1, 0]` returns it unchanged. -/
lemma l2normalize_unit : l2normalize [1, 0] = [1, 0] := by
  unfold l2normalize
  rw [l2norm_unit, max_norm_eps]
  norm_num

/-- Helper: with query `[1, 0]` and two copies of the unit gallery row
`[1, 0]`, both distances are 0. -/
lemma distancesRow_cex :
    distancesRow [1, 0] [[1, 0], [1, 0]] = [0, 0] := by
  unfold distancesRow
  rw [List.map_cons, List.map_cons, List.map_nil, l2normalize_unit]
  unfold dotProduct
  norm_num

/-- Helper: a singleton gallery admits its only ranking. -/
lemma get_predictions_single :
    get_predictions [1, 0] [[1, 0]] ["a"] ["a"] := by
  refine ⟨[0], ⟨?_, List.chain'_singleton 0⟩, rfl⟩
  have hdlen : (distancesRow [(1 : ℝ), 0] [[1, 0]]).length = 1 := by
    unfold distancesRow
    rw [List.length_map]
    rfl
  rw [hdlen]
  decide

/-- Claim C2, counterexample: at the boundary draw `r = 0.25` the code's
strict chained comparison `0.25 < random_num < 0.5` is false, so the draw
falls through to the final branch and yields `"b"` alone, while the claim
assigns `[0.25, 0.5)` to the composition `"b and a"`. -/
theorem C2_counterexample :
    generate_randomized_fiq_caption ["a", "b"] (mkRat 1 4) (-1)
        = Except.ok "b"
      ∧ Except.ok "b" ≠ (Except.ok "b and a" : Except String String) := by
  refine ⟨rfl, ?_⟩
  simp

/-- Claim C2, amended: for a caption pair `(A, B)` and a draw `r ∈ [0,1)`,
the composed caption is `"A and B"` on `[0, 0.25)`, `"B and A"` on the open
interval `(0.25, 0.5)`, `"A"` on the open interval `(0.5, 0.75)`, and `"B"`
on `{0.25} ∪ {0.5} ∪ [0.75, 1)`; each fragment is stripped of leading and
trailing characters among `'.'`, `'?'`, `','`, `' '` before composing. -/
theorem C2_amended_caption_quartiles (A B : String) (r : ℚ) (h0 : 0 ≤ r)
    (h1 : r < 1) :
    (r < 1 / 4 → generate_randomized_fiq_caption [A, B] r (-1)
        = Except.ok (pyStrip A ++ " and " ++ pyStrip B))
      ∧ (1 / 4 < r → r < 1 / 2 → generate_randomized_fiq_caption [A, B] r (-1)
        = Except.ok (pyStrip B ++ " and " ++ pyStrip A))
      ∧ (1 / 2 < r → r < 3 / 4 → generate_randomized_fiq_caption [A, B] r (-1)
        = Except.ok (pyStrip A))
      ∧ (r = 1 / 4 ∨ r = 1 / 2 ∨ 3 / 4 ≤ r →
        generate_randomized_fiq_caption [A, B] r (-1)
        = Except.ok (pyStrip B)) := by
  have hdef : generate_randomized_fiq_caption [A, B] r (-1)
      = fiqCaptionBranch [A, B] r := rfl
  rw [hdef, gen_fiq_caption_pair]
  refine ⟨fun h => by rw [if_pos h], fun h h2 => ?_, fun h h2 => ?_,
    fun h => ?_⟩
  · rw [if_neg (by linarith), if_pos ⟨h, h2⟩]
  · rw [if_neg (by linarith), if_neg (fun hc => by linarith [hc.2]),
      if_pos ⟨h, h2⟩]
  · rcases h with h | h | h
    · subst h; norm_num
    · subst h; norm_num
    · rw [if_neg (by linarith), if_neg (fun hc => by linarith [hc.2]),
        if_neg (fun hc => by linarith [hc.1])]

/-- Witness for `C2_amended_caption_quartiles` at `A = "a."`, `B = " b"`,
`r = 1/8`. -/
theorem C2_witness :
    (0 : ℚ) ≤ 1 / 8 ∧ (1 : ℚ) / 8 < 1
      ∧ generate_randomized_fiq_caption ["a.", " b"] (1 / 8) (-1)
        = Except.ok (pyStrip "a." ++ " and " ++ pyStrip " b") := by
  refine ⟨by norm_num, by norm_num, ?_⟩
  exact (C2_amended_caption_quartiles "a." " b" (1 / 8) (by norm_num)
    (by norm_num)).1 (by norm_num)

/-- Claim C5: with a fixed selector `k ∈ {0,1,2,3}` the caption function
returns the `k`-th quartile composition regardless of the random draw (the
draw is overwritten with the in-quartile constants 0.12 / 0.37 / 0.62 /
0.88), and the validation-retrieval path of `CIRDataset.__getitem__` invokes
it with selector `0`. -/
theorem C5_deterministic_override (A B : String) (r : ℚ)
    (captions : List String) (hlen : 1 < captions.length) :
    generate_randomized_fiq_caption [A, B] r 0
        = Except.ok (pyStrip A ++ " and " ++ pyStrip B)
      ∧ generate_randomized_fiq_caption [A, B] r 1
        = Except.ok (pyStrip B ++ " and " ++ pyStrip A)
      ∧ generate_randomized_fiq_caption [A, B] r 2 = Except.ok (pyStrip A)
      ∧ generate_randomized_fiq_caption [A, B] r 3 = Except.ok (pyStrip B)
      ∧ CIRDataset.valRetCaptionSelect captions r
        = generate_randomized_fiq_caption captions r 0 := by
  refine ⟨rfl, rfl, rfl, rfl, ?_⟩
  unfold CIRDataset.valRetCaptionSelect
  rw [if_pos hlen]

/-- Witness for `C5_deterministic_override` at `A = "a"`, `B = "b"`,
`r = 1/3`, `captions = ["x", "y"]`. -/
theorem C5_witness :
    1 < (["x", "y"] : List String).length
      ∧ generate_randomized_fiq_caption ["a", "b"] (mkRat 1 3) 0
        = Except.ok (pyStrip "a" ++ " and " ++ pyStrip "b") := by
  refine ⟨by decide, ?_⟩
  exact (C5_deterministic_override "a" "b" (mkRat 1 3) ["x", "y"]
    (by decide)).1

/-- Claim C10: `generate_randomized_fiq_caption` succeeds on every caption
list of length at least 2 for every draw and selector; on a single-caption
list the three branches that read `captions[1]` raise `IndexError` (shown at
in-branch draws 0.1, 0.3 and 0.8) while the `"A"`-only branch (draw 0.6)
succeeds; and the train-split caption selection of `CIRDataset.__getitem__`
guards the call with `len(captions) > 1`, so it never raises for nonempty
caption lists. -/
theorem C10_caption_totality :
    (∀ (captions : List String) (r : ℚ) (ty : ℤ), 2 ≤ captions.length →
      ∃ s, generate_randomized_fiq_caption captions r ty = Except.ok s)
      ∧ generate_randomized_fiq_caption ["a"] (mkRat 1 10) (-1)
        = Except.error "IndexError"
      ∧ generate_randomized_fiq_caption ["a"] (mkRat 3 10) (-1)
        = Except.error "IndexError"
      ∧ generate_randomized_fiq_caption ["a"] (mkRat 6 10) (-1)
        = Except.ok "a"
      ∧ generate_randomized_fiq_caption ["a"] (mkRat 8 10) (-1)
        = Except.error "IndexError"
      ∧ (∀ (dataName : String) (idx N : ℕ) (captions : List String) (r : ℚ)
          (rc : ℕ), 1 ≤ captions.length →
          ∃ s, CIRDataset.trainCaptionSelect dataName idx N captions r rc
            = Except.ok s) := by
  refine ⟨?_, rfl, rfl, rfl, rfl, ?_⟩
  · intro captions r ty hlen
    rcases captions with _ | ⟨a, _ | ⟨b, t⟩⟩
    · simp at hlen
    · simp at hlen
    · exact gen_fiq_caption_total a b t r ty
  · intro dataName idx N captions r rc hlen
    rcases captions with _ | ⟨a, _ | ⟨b, t⟩⟩
    · simp at hlen
    · exact ⟨a, rfl⟩
    · unfold CIRDataset.trainCaptionSelect
      rw [if_pos (by simp only [List.length_cons]; omega)]
      split
      · exact gen_fiq_caption_total a b t r (-1)
      · refine pyGet_ok _ _ ?_
        exact Nat.mod_lt _ (by simp only [List.length_cons]; omega)

/-- Witness for `C10_caption_totality`: the universally quantified parts
applied at concrete inputs. -/
theorem C10_witness :
    (∃ s, generate_randomized_fiq_caption ["a", "b"] (mkRat 1 10) (-1)
      = Except.ok s)
      ∧ (∃ s, CIRDataset.trainCaptionSelect "fiq" 0 1 ["a", "b"]
        (mkRat 1 10) 0 = Except.ok s) :=
  ⟨C10_caption_totality.1 ["a", "b"] (mkRat 1 10) (-1) (by decide),
    C10_caption_totality.2.2.2.2.2 "fiq" 0 1 ["a", "b"] (mkRat 1 10) 0
      (by decide)⟩

/-- Claim C9, counterexample: a 3×4 image has `max_wh = 4` and
`hp = int((4-3)/2) = 0`, so `SquarePad.__call__` leaves it at 3×4 — not
square. -/
theorem C9_counterexample :
    SquarePad.call 3 4 = (3, 4) ∧ (SquarePad.call 3 4).1 ≠ (SquarePad.call 3 4).2 := by
  decide

/-- Claim C9, amended: the square-pad step pads each side symmetrically by
`2 * ((max(w,h) - side) / 2)` zero-valued pixels; the padded sides never
exceed `max(w,h)`, each side reaches `max(w,h)` exactly when the deficit
`max(w,h) - side` is even, and the output is exactly the square
`max(w,h) × max(w,h)` whenever `w` and `h` have the same parity (in
particular it falls one pixel short of square when `w - h` is odd). -/
theorem C9_amended_squarepad (w h : ℕ) :
    (SquarePad.call w h).1 ≤ max w h
      ∧ (SquarePad.call w h).2 ≤ max w h
      ∧ ((SquarePad.call w h).1 = max w h ↔ (max w h - w) % 2 = 0)
      ∧ ((SquarePad.call w h).2 = max w h ↔ (max w h - h) % 2 = 0)
      ∧ (w % 2 = h % 2 → SquarePad.call w h = (max w h, max w h)) := by
  refine ⟨?_, ?_, ?_, ?_, ?_⟩ <;>
    simp only [SquarePad.call, Prod.mk.injEq] <;> omega

/-- Witness for `C9_amended_squarepad`: a 2×4 image is padded to the exact
square 4×4. -/
theorem C9_witness : 2 % 2 = 4 % 2 ∧ SquarePad.call 2 4 = (max 2 4, max 2 4) :=
  ⟨by decide, (C9_amended_squarepad 2 4).2.2.2.2 (by decide)⟩

/-- Claim C4: for a positive-size image and a target ratio at least 1,
`TargetPad.__call__` returns the image unchanged when
`max(w,h)/min(w,h) < target_ratio`; otherwise it pads only the short side
(symmetrically, with the negative long-side padding clamped to zero), the
long side stays `max(w,h)`, and the padded ratio equals the target ratio up
to the integer-pixel rounding: `target_ratio * min' ≤ max(w,h)` (so it never
pads past the target toward square) and
`max(w,h) < target_ratio * (min' + 2)`. -/
theorem C4_targetpad (r : ℚ) (w h : ℕ) (hw : 0 < w) (hh : 0 < h)
    (hr : 1 ≤ r) :
    (((max w h : ℕ) : ℚ) / ((min w h : ℕ) : ℚ) < r →
      TargetPad.call r w h = (w, h))
      ∧ (r ≤ ((max w h : ℕ) : ℚ) / ((min w h : ℕ) : ℚ) →
        max (TargetPad.call r w h).1 (TargetPad.call r w h).2 = max w h
          ∧ r * ((min (TargetPad.call r w h).1 (TargetPad.call r w h).2 : ℕ) : ℚ)
              ≤ ((max w h : ℕ) : ℚ)
          ∧ ((max w h : ℕ) : ℚ)
              < r * (((min (TargetPad.call r w h).1 (TargetPad.call r w h).2 : ℕ) : ℚ) + 2)) := by
  constructor
  · intro hlt
    unfold TargetPad.call
    rw [if_pos hlt]
  · intro hge
    rcases le_total h w with hle | hle
    · have hmax : max w h = w := max_eq_left hle
      have hmin : min w h = h := min_eq_right hle
      rw [hmax, hmin] at hge
      rw [hmax]
      obtain ⟨h1, h2, h3⟩ := targetPad_pads r w h hh hle hr hge
      have h2le : ((TargetPad.call r w h).2 : ℚ) ≤ (w : ℚ) := by
        have hc0 : (0 : ℚ) ≤ ((TargetPad.call r w h).2 : ℚ) :=
          Nat.cast_nonneg _
        have := mul_le_mul_of_nonneg_right hr hc0
        linarith
      have h2leN : (TargetPad.call r w h).2 ≤ w := by exact_mod_cast h2le
      rw [h1]
      refine ⟨max_eq_left h2leN, ?_, ?_⟩
      · rw [min_eq_right h2leN]; exact h2
      · rw [min_eq_right h2leN]; exact h3
    · have hmax : max w h = h := max_eq_right hle
      have hmin : min w h = w := min_eq_left hle
      rw [hmax, hmin] at hge
      rw [hmax]
      have hswap := targetPad_swap r h w
      obtain ⟨h1, h2, h3⟩ := targetPad_pads r h w hw hle hr hge
      have h2le : ((TargetPad.call r h w).2 : ℚ) ≤ (h : ℚ) := by
        have hc0 : (0 : ℚ) ≤ ((TargetPad.call r h w).2 : ℚ) :=
          Nat.cast_nonneg _
        have := mul_le_mul_of_nonneg_right hr hc0
        linarith
      have h2leN : (TargetPad.call r h w).2 ≤ h := by exact_mod_cast h2le
      rw [hswap]
      dsimp only
      rw [h1]
      refine ⟨max_eq_right h2leN, ?_, ?_⟩
      · rw [min_eq_left h2leN]; exact h2
      · rw [min_eq_left h2leN]; exact h3

/-- Witness for `C4_targetpad` at `target_ratio = 5/4`, `w = 4`, `h = 2`. -/
theorem C4_witness :
    ((5 : ℚ) / 4 ≤ ((max 4 2 : ℕ) : ℚ) / ((min 4 2 : ℕ) : ℚ))
      ∧ max (TargetPad.call (5 / 4) 4 2).1 (TargetPad.call (5 / 4) 4 2).2
        = max 4 2 := by
  have h := (C4_targetpad (5 / 4) 4 2 (by norm_num) (by norm_num)
    (by norm_num)).2
  have hge : (5 : ℚ) / 4 ≤ ((max 4 2 : ℕ) : ℚ) / ((min 4 2 : ℕ) : ℚ) := by
    norm_num
  exact ⟨hge, (h hge).1⟩

/-- Claim C3: building the gallery index over a classic-mode dataset of `N`
items yields an embedding matrix and an identifier list of equal length `N`,
filled in dataset iteration order with no reordering and no deduplication,
and the identifier at position `i` is the name of the item whose encoded
embedding sits in row `i`. -/
theorem C3_index_alignment {Img Emb : Type} (encode : Img → Emb)
    (dataset : List (String × Img)) :
    (extract_index_features encode dataset).1
        = dataset.map (fun item => encode item.2)
      ∧ (extract_index_features encode dataset).2 = dataset.map Prod.fst
      ∧ (extract_index_features encode dataset).1.length = dataset.length
      ∧ (extract_index_features encode dataset).2.length = dataset.length
      ∧ ∀ i : ℕ,
          (extract_index_features encode dataset).1.get? i
              = (dataset.get? i).map (fun item => encode item.2)
            ∧ (extract_index_features encode dataset).2.get? i
              = (dataset.get? i).map Prod.fst := by
  have hfold := extract_index_features_foldl encode dataset [] []
  have h1 : (extract_index_features encode dataset).1
      = dataset.map (fun item => encode item.2) := by
    unfold extract_index_features
    rw [hfold]
    simp
  have h2 : (extract_index_features encode dataset).2
      = dataset.map Prod.fst := by
    unfold extract_index_features
    rw [hfold]
    simp
  refine ⟨h1, h2, ?_, ?_, ?_⟩
  · rw [h1]; simp
  · rw [h2]; simp
  · intro i
    rw [h1, h2]
    constructor
    · rw [List.get?_map]
    · rw [List.get?_map]

/-- Claim C6, counterexample: with an image opener that raises (file
missing), `CIRDataset.__getitem__` — which has no `try/except` — propagates
the exception instead of catching it, while `FashionIQDataset.__getitem__`
catches it (and yields a `None` slot) on the same failing item. -/
theorem C6_counterexample :
    CIRDataset.getItemClassicFiq
        (fun _ : String => (Except.error "FileNotFoundError" : Except String Unit))
        (fun u => u) "images" ["B001"] 0 = Except.error "FileNotFoundError"
      ∧ FashionIQDataset.getItemClassic
        (fun _ : String => (Except.error "FileNotFoundError" : Except String Unit))
        (fun u => u) ["B001"] 0 = none :=
  ⟨rfl, rfl⟩

/-- Claim C6, amended: `FashionIQDataset`, `CIRRDataset` and
`WikiartDataset` wrap `__getitem__` in a print-and-swallow `try/except`, so
a failing item produces a `None` slot (not a skip) and iteration over the
remaining items continues; `CIRDataset.__getitem__` has no handler, so a
per-item failure propagates and aborts the fetch. -/
theorem C6_amended_error_handling {Img : Type}
    (openImage : String → Except String Img) (pre : Img → Img)
    (names : List String) (nameToRelpath : List (String × String))
    (basePath root : String) (paths : List String) (i : ℕ) :
    (∀ e, FashionIQDataset.classicFetch openImage pre names i
        = Except.error e →
      FashionIQDataset.getItemClassic openImage pre names i = none)
      ∧ (∀ v, FashionIQDataset.classicFetch openImage pre names i
          = Except.ok v →
        FashionIQDataset.getItemClassic openImage pre names i = some v)
      ∧ (∀ e, CIRRDataset.classicFetch openImage pre nameToRelpath i
          = Except.error e →
        CIRRDataset.getItemClassic openImage pre nameToRelpath i = none)
      ∧ (∀ e, WikiartDataset.fetch openImage pre basePath paths i
          = Except.error e →
        WikiartDataset.getItem openImage pre basePath paths i = none)
      ∧ (∀ e, (∀ p, openImage p = Except.error e) → i < names.length →
        CIRDataset.getItemClassicFiq openImage pre root names i
          = Except.error e) := by
  refine ⟨?_, ?_, ?_, ?_, ?_⟩
  · intro e he
    unfold FashionIQDataset.getItemClassic pyTry
    rw [he]
  · intro v hv
    unfold FashionIQDataset.getItemClassic pyTry
    rw [hv]
  · intro e he
    unfold CIRRDataset.getItemClassic pyTry
    rw [he]
  · intro e he
    unfold WikiartDataset.getItem pyTry
    rw [he]
  · intro e hfail hi
    obtain ⟨n, hn⟩ := pyGet_ok names i hi
    unfold CIRDataset.getItemClassicFiq
    rw [hn, except_bind_ok, hfail (root ++ "/" ++ n ++ ".png"),
      except_bind_error]

/-- Witness for `C6_amended_error_handling`: the FashionIQ catch and the
CIRDataset propagation applied at a concrete failing opener. -/
theorem C6_witness :
    FashionIQDataset.getItemClassic
        (fun _ : String => (Except.error "corrupt" : Except String Unit))
        (fun u => u) ["x1"] 0 = none
      ∧ CIRDataset.getItemClassicFiq
        (fun _ : String => (Except.error "corrupt" : Except String Unit))
        (fun u => u) "img" ["x1"] 0 = Except.error "corrupt" :=
  ⟨(C6_amended_error_handling
      (fun _ : String => (Except.error "corrupt" : Except String Unit))
      (fun u => u) ["x1"] [] "" "img" [] 0).1 "corrupt" rfl,
    (C6_amended_error_handling
      (fun _ : String => (Except.error "corrupt" : Except String Unit))
      (fun u => u) ["x1"] [] "" "img" [] 0).2.2.2.2 "corrupt"
      (fun _ => rfl) (by decide)⟩

/-- Claim C7, counterexample: `CIRDataset` construction succeeds with an
unknown dataset name, an invalid split and an invalid mode — no
configuration error is raised at construction time (failures surface only
later, at iteration). -/
theorem C7_counterexample :
    CIRDataset.initCheck "foo" "bogus-split" "bogus-mode" ["dress"]
      = Except.ok () := by
  rfl

/-- Claim C7, amended: `FashionIQDataset.__init__` and
`CIRRDataset.__init__` raise `ValueError` at construction for a mode outside
`relative`/`classic`, an invalid split, or (FashionIQ) an unknown dress
type, and accept a configuration only when all three are valid;
`CIRDataset.__init__` validates only the dress types and accepts any
dataset name, split and mode at construction, deferring those failures to
iteration time. -/
theorem C7_amended_construction_checks (dataName split mode : String)
    (dressTypes : List String) :
    (mode ∉ ["relative", "classic"] →
      ∃ e, FashionIQDataset.initCheck split dressTypes mode
        = Except.error e)
      ∧ (split ∉ ["test", "train", "val"] →
        ∃ e, FashionIQDataset.initCheck split dressTypes mode
          = Except.error e)
      ∧ (split ∉ ["test1", "train", "val"] →
        ∃ e, CIRRDataset.initCheck split mode = Except.error e)
      ∧ (mode ∉ ["relative", "classic"] →
        ∃ e, CIRRDataset.initCheck split mode = Except.error e)
      ∧ ((∀ d ∈ dressTypes, d ∈ ["dress", "shirt", "toptee"]) →
        CIRDataset.initCheck dataName split mode dressTypes = Except.ok ())
      ∧ (FashionIQDataset.initCheck split dressTypes mode = Except.ok () →
        mode ∈ ["relative", "classic"] ∧ split ∈ ["test", "train", "val"]
          ∧ ∀ d ∈ dressTypes, d ∈ ["dress", "shirt", "toptee"]) := by
  refine ⟨?_, ?_, ?_, ?_, ?_, ?_⟩
  · intro h
    unfold FashionIQDataset.initCheck
    rw [if_pos h]
    exact ⟨_, rfl⟩
  · intro h
    unfold FashionIQDataset.initCheck
    by_cases hm : mode ∉ ["relative", "classic"]
    · rw [if_pos hm]
      exact ⟨_, rfl⟩
    · rw [if_neg hm, if_pos h]
      exact ⟨_, rfl⟩
  · intro h
    unfold CIRRDataset.initCheck
    rw [if_pos h]
    exact ⟨_, rfl⟩
  · intro h
    unfold CIRRDataset.initCheck
    by_cases hs : split ∉ ["test1", "train", "val"]
    · rw [if_pos hs]
      exact ⟨_, rfl⟩
    · rw [if_neg hs, if_pos h]
      exact ⟨_, rfl⟩
  · intro h
    unfold CIRDataset.initCheck
    rw [if_pos h]
  · intro hok
    unfold FashionIQDataset.initCheck at hok
    split_ifs at hok with h1 h2 h3
    · exact ⟨h1, h2, h3⟩

/-- Witness for `C7_amended_construction_checks`: FashionIQ rejects a bad
mode, CIRDataset accepts an unknown dataset name. -/
theorem C7_witness :
    (∃ e, FashionIQDataset.initCheck "train" ["dress"] "bogus"
      = Except.error e)
      ∧ CIRDataset.initCheck "foo" "val" "relative" ["dress"]
        = Except.ok () :=
  ⟨(C7_amended_construction_checks "foo" "train" "bogus" ["dress"]).1
      (by decide),
    (C7_amended_construction_checks "foo" "val" "relative" ["dress"]).2.2.2.2.1
      (by decide)⟩

/-- Claim C1, counterexample: with query `[1,0]`, a gallery of two identical
rows `[1,0]` named `"a"` and `"b"`, both distances are 0; the permutation
`[1,0]` is admissible for the unstable `torch.argsort`, so `get_predictions`
may return `["b","a"]`, which breaks the claimed tie-break by original
gallery position (`["a","b"]` would be the stable output). -/
theorem C1_counterexample :
    get_predictions [1, 0] [[1, 0], [1, 0]] ["a", "b"] ["b", "a"]
      ∧ distancesRow [1, 0] [[1, 0], [1, 0]] = [0, 0]
      ∧ ¬ StableRankingOf [1, 0] [[1, 0], [1, 0]] ["a", "b"] ["b", "a"] := by
  refine ⟨⟨[1, 0], ⟨?_, ?_⟩, rfl⟩, distancesRow_cex, ?_⟩
  · rw [distancesRow_cex]
    decide
  · rw [distancesRow_cex]
    refine List.chain'_cons.mpr ⟨?_, List.chain'_singleton 0⟩
    norm_num [List.getD]
  · rintro ⟨p, ⟨hperm, _⟩, hstab, hout⟩
    rw [distancesRow_cex] at hperm hstab
    have hlen : p.length = 2 := by
      have := hperm.length_eq
      simpa using this
    match p, hlen, hperm, hstab, hout with
    | [x, y], _, hperm, hstab, hout =>
      have hx2 : x < 2 := by
        have hx : x ∈ List.range 2 := by
          have := hperm.mem_iff.mp (show x ∈ [x, y] by simp)
          simpa using this
        exact List.mem_range.mp hx
      have hy2 : y < 2 := by
        have hy : y ∈ List.range 2 := by
          have := hperm.mem_iff.mp (show y ∈ [x, y] by simp)
          simpa using this
        exact List.mem_range.mp hy
      have hmap : (["b", "a"] : List String)
          = [(["a", "b"] : List String).getD x "",
             (["a", "b"] : List String).getD y ""] := by
        simpa using hout
      have hx1 : x = 1 := by
        interval_cases x
        · simp at hmap
        · rfl
      subst hx1
      have hy0 : y = 0 := by
        interval_cases y
        · rfl
        · simp at hmap
      subst hy0
      have := hstab 0 1 (by simp) (by simp) (by norm_num) (by simp)
      simp at this

/-- Claim C1, amended: for every query embedding, gallery matrix and name
list, every ranking admissible for `get_predictions` lists the gallery
identifiers along a permutation of the gallery positions whose distances —
`1 - dot(query, L2-normalized gallery row)` — are non-decreasing; the
order among tied distances is unspecified (the code calls `torch.argsort`
without `stable=True`). -/
theorem C1_amended_ranking_sorted (q : List ℝ) (G : List (List ℝ))
    (names : List String) (out : List String)
    (h : get_predictions q G names out) :
    ∃ p : List ℕ, out = p.map (fun i => names.getD i "")
      ∧ p.length = G.length
      ∧ (∀ i ∈ p, i < G.length)
      ∧ ∀ a b : ℕ, ∀ ha : a < p.length, ∀ hb : b < p.length, a < b →
          (distancesRow q G).getD (p.get ⟨a, ha⟩) 0
            ≤ (distancesRow q G).getD (p.get ⟨b, hb⟩) 0 := by
  obtain ⟨p, ⟨hperm, hchain⟩, hout⟩ := h
  have hdlen : (distancesRow q G).length = G.length := by
    unfold distancesRow
    exact List.length_map _ _
  have hlen : p.length = G.length := by
    have := hperm.length_eq
    rw [List.length_range, hdlen] at this
    exact this
  refine ⟨p, hout, hlen, ?_, ?_⟩
  · intro i hi
    have hmem : i ∈ List.range (distancesRow q G).length :=
      hperm.mem_iff.mp hi
    rw [hdlen] at hmem
    exact List.mem_range.mp hmem
  · haveI : IsTrans ℕ (fun i j =>
        (distancesRow q G).getD i 0 ≤ (distancesRow q G).getD j 0) :=
      ⟨fun _ _ _ hab hbc => le_trans hab hbc⟩
    have hpw := List.chain'_iff_pairwise.mp hchain
    intro a b ha hb hab
    exact List.pairwise_iff_get.mp hpw ⟨a, ha⟩ ⟨b, hb⟩ hab

/-- Witness for `C1_amended_ranking_sorted` at the one-item gallery
`[[1,0]]` named `["a"]`. -/
theorem C1_witness :
    get_predictions [1, 0] [[1, 0]] ["a"] ["a"]
      ∧ ∃ p : List ℕ,
        (["a"] : List String) = p.map (fun i => (["a"] : List String).getD i "")
          ∧ p.length = ([[1, 0]] : List (List ℝ)).length
          ∧ (∀ i ∈ p, i < ([[1, 0]] : List (List ℝ)).length)
          ∧ ∀ a b : ℕ, ∀ ha : a < p.length, ∀ hb : b < p.length, a < b →
              (distancesRow [1, 0] [[1, 0]]).getD (p.get ⟨a, ha⟩) 0
                ≤ (distancesRow [1, 0] [[1, 0]]).getD (p.get ⟨b, hb⟩) 0 :=
  ⟨get_predictions_single,
    C1_amended_ranking_sorted [1, 0] [[1, 0]] ["a"] ["a"]
      get_predictions_single⟩

/-- Claim C8, counterexample: ranking against a zero-row gallery raises
nothing — `get_predictions` computes the (empty) distance row, argsorts it
and returns the empty identifier sequence; no `EmptyGalleryError` exists
anywhere in the code. -/
theorem C8_counterexample : get_predictions [1] [] [] [] := by
  refine ⟨[], ⟨?_, List.chain'_nil⟩, rfl⟩
  unfold distancesRow
  rfl

/-- Claim C8, amended: a ranking call against a zero-row gallery performs
the (vacuous) distance computation and returns the empty ranking — it is
the only admissible output — rather than raising an `EmptyGalleryError`
(no such error class exists in the code). -/
theorem C8_amended_empty_gallery (q : List ℝ) :
    get_predictions q [] [] []
      ∧ ∀ out, get_predictions q [] [] out → out = [] := by
  constructor
  · refine ⟨[], ⟨?_, List.chain'_nil⟩, rfl⟩
    unfold distancesRow
    rfl
  · rintro out ⟨p, ⟨hperm, _⟩, hout⟩
    have hp : p = [] := by
      have hlen := hperm.length_eq
      simp [distancesRow] at hlen
      exact hlen
    subst hp
    simpa using hout

/-- Witness for `C8_amended_empty_gallery` at the query `[1]`. -/
theorem C8_witness :
    get_predictions [1] [] [] [] ∧ ([] : List String) = [] :=
  ⟨(C8_amended_empty_gallery [1]).1,
    (C8_amended_empty_gallery [1]).2 [] (C8_amended_empty_gallery [1]).1⟩

/-- Witness for `C3_index_alignment` on a two-item dataset with a concrete
encoder. -/
theorem C3_witness :
    (extract_index_features (fun n : ℕ => n + 1) [("a", 10), ("b", 20)]).1
        = [11, 21]
      ∧ (extract_index_features (fun n : ℕ => n + 1)
          [("a", 10), ("b", 20)]).2 = ["a", "b"] := by
  have h := C3_index_alignment (fun n : ℕ => n + 1) [("a", 10), ("b", 20)]
  refine ⟨?_, ?_⟩
  · rw [h.1]
    rfl
  · rw [h.2.1]
    rfl
